import Mathlib

/-!
Verification of the SmartCrop numeric core (satellite_processor.py,
models/yield_predictor.py) against its natural-language specification.

Floats are modelled as exact rationals (`ℚ`); the only irrational
operation in the code, `np.std`'s square root, is modelled in `ℝ` via
`Real.sqrt`.  Numpy rasters are modelled as `List ℚ`, boolean masks as
`List Bool`, and elementwise raster operations as `List.zipWith` of the
per-pixel function.  The global-RNG draw `np.random.normal(0, 0.05)`
consumed by `XGBoostYieldModel.predict` is made an explicit `noise`
parameter, so a concrete draw can be discussed.  `datetime`-valued fields
(`planting_date`, used only through the wall clock in
`prepare_features`, which no verified claim touches) are omitted from the
farm record.
-/

/-- `np.clip(x, lo, hi)`: `minimum(hi, maximum(lo, x))`. -/
def npClip (x lo hi : ℚ) : ℚ := min (max x lo) hi

/-- The `1e-10` epsilon substituted for a zero denominator. -/
def npEps : ℚ := 1 / 10 ^ 10

/-! ## SatelliteProcessor: per-pixel index computations

Class constants: `SAVI_L = 0.5`, `EVI_G = 2.5`, `EVI_C1 = 6.0`,
`EVI_C2 = 7.5`, `EVI_L = 1.0`. -/

def SAVI_L : ℚ := 1 / 2
def EVI_G : ℚ := 5 / 2
def EVI_C1 : ℚ := 6
def EVI_C2 : ℚ := 15 / 2
def EVI_L : ℚ := 1

/-- One pixel of `SatelliteProcessor.compute_ndvi`:
`d = nir + red`; `d = where(d == 0, 1e-10, d)`;
`clip((nir - red) / d, -1, 1)`. -/
def ndviPixel (nir red : ℚ) : ℚ :=
  let d := nir + red
  let d := if d = 0 then npEps else d
  npClip ((nir - red) / d) (-1) 1

/-- One pixel of `SatelliteProcessor.compute_ndwi` (argument order as in
the source: `(nir, green)`): `clip((green - nir) / (green + nir), -1, 1)`
with the zero denominator replaced by `1e-10`. -/
def ndwiPixel (nir green : ℚ) : ℚ :=
  let d := green + nir
  let d := if d = 0 then npEps else d
  npClip ((green - nir) / d) (-1) 1

/-- One pixel of `SatelliteProcessor.compute_savi` with soil factor `L`:
`clip(((nir - red) / (nir + red + L)) * (1 + L), -1, 1)` with the zero
denominator replaced by `1e-10`. -/
def saviPixel (nir red L : ℚ) : ℚ :=
  let d := nir + red + L
  let d := if d = 0 then npEps else d
  npClip ((nir - red) / d * (1 + L)) (-1) 1

/-- One pixel of `SatelliteProcessor.compute_evi`:
`clip(G * (nir - red) / (nir + C1*red - C2*blue + L), -1, 1)` with the
zero denominator replaced by `1e-10`. -/
def eviPixel (nir red blue : ℚ) : ℚ :=
  let d := nir + EVI_C1 * red - EVI_C2 * blue + EVI_L
  let d := if d = 0 then npEps else d
  npClip (EVI_G * (nir - red) / d) (-1) 1

/-- `SatelliteProcessor.compute_ndvi` on whole rasters. -/
def computeNdvi (nir red : List ℚ) : List ℚ := List.zipWith ndviPixel nir red

/-- `SatelliteProcessor.compute_ndwi` on whole rasters. -/
def computeNdwi (nir green : List ℚ) : List ℚ := List.zipWith ndwiPixel nir green

/-- `SatelliteProcessor.compute_savi` on whole rasters (default `L = SAVI_L`). -/
def computeSavi (nir red : List ℚ) (L : ℚ := SAVI_L) : List ℚ :=
  List.zipWith (fun n r => saviPixel n r L) nir red

/-- `SatelliteProcessor.compute_evi` on whole rasters. -/
def computeEvi (nir red blue : List ℚ) : List ℚ :=
  List.zipWith₃ eviPixel nir red blue

/-! Spec-side formulations of the four index formulas, written from the
spec's words: the plain formula, with a denominator that is exactly zero
replaced by a negligible positive epsilon, and the result clamped to
`[-1, 1]`. -/

/-- Spec formula: NDVI = (NIR − Red) / (NIR + Red), epsilon-guarded, clamped. -/
def ndviSpec (nir red : ℚ) : ℚ :=
  max (-1) (min 1 ((nir - red) / (if nir + red = 0 then npEps else nir + red)))

/-- Spec formula: NDWI = (Green − NIR) / (Green + NIR), epsilon-guarded, clamped. -/
def ndwiSpec (nir green : ℚ) : ℚ :=
  max (-1) (min 1 ((green - nir) / (if green + nir = 0 then npEps else green + nir)))

/-- Spec formula: SAVI = ((NIR − Red)/(NIR + Red + L)) × (1 + L),
epsilon-guarded, clamped. -/
def saviSpec (nir red L : ℚ) : ℚ :=
  max (-1) (min 1 ((nir - red) / (if nir + red + L = 0 then npEps else nir + red + L) * (1 + L)))

/-- Spec formula: EVI = G × (NIR − Red) / (NIR + C1·Red − C2·Blue + L_evi)
with G=2.5, C1=6.0, C2=7.5, L_evi=1.0, epsilon-guarded, clamped. -/
def eviSpec (nir red blue : ℚ) : ℚ :=
  max (-1) (min 1 ((5/2) * (nir - red) /
    (if nir + 6 * red - (15/2) * blue + 1 = 0 then npEps
     else nir + 6 * red - (15/2) * blue + 1)))

/-! ## SatelliteProcessor.classify_health_zones

The source builds the zone map by sequential masked writes into a zero
raster; the four masks are embedded literally and the per-pixel value is
the result of the write sequence. -/

/-- `critical_mask = (ndvi < 0.2) | (ndwi < -0.2)`. -/
def criticalMask (ndvi ndwi : ℚ) : Prop := ndvi < 1/5 ∨ ndwi < -(1/5)

instance criticalMask.dec (ndvi ndwi : ℚ) : Decidable (criticalMask ndvi ndwi) := by
  unfold criticalMask; infer_instance

/-- `stressed_mask = ~critical_mask & ((ndvi < 0.4) | (ndwi < 0))`. -/
def stressedMask (ndvi ndwi : ℚ) : Prop :=
  ¬criticalMask ndvi ndwi ∧ (ndvi < 2/5 ∨ ndwi < 0)

instance stressedMask.dec (ndvi ndwi : ℚ) : Decidable (stressedMask ndvi ndwi) := by
  unfold stressedMask; infer_instance

/-- `moderate_mask = ~critical_mask & ~stressed_mask & (ndvi < 0.6)`. -/
def moderateMask (ndvi ndwi : ℚ) : Prop :=
  ¬criticalMask ndvi ndwi ∧ ¬stressedMask ndvi ndwi ∧ ndvi < 3/5

instance moderateMask.dec (ndvi ndwi : ℚ) : Decidable (moderateMask ndvi ndwi) := by
  unfold moderateMask; infer_instance

/-- `healthy_mask = ~critical_mask & ~stressed_mask & ~moderate_mask`. -/
def healthyMask (ndvi ndwi : ℚ) : Prop :=
  ¬criticalMask ndvi ndwi ∧ ¬stressedMask ndvi ndwi ∧ ¬moderateMask ndvi ndwi

instance healthyMask.dec (ndvi ndwi : ℚ) : Decidable (healthyMask ndvi ndwi) := by
  unfold healthyMask; infer_instance

/-- One pixel of the zone map: starts at 0 (`np.zeros_like`), then the
four masked writes `zones[critical]=0; zones[stressed]=1; zones[moderate]=2;
zones[healthy]=3` are applied in source order (later writes win). -/
def zonePixel (ndvi ndwi : ℚ) : ℕ :=
  let z : ℕ := 0
  let z := if criticalMask ndvi ndwi then 0 else z
  let z := if stressedMask ndvi ndwi then 1 else z
  let z := if moderateMask ndvi ndwi then 2 else z
  let z := if healthyMask ndvi ndwi then 3 else z
  z

/-- Spec-side zone policy, written from the spec's priority-ordered prose:
critical if NDVI < 0.2 or NDWI < −0.2; else stressed if NDVI < 0.4 or
NDWI < 0; else moderate if NDVI < 0.6; else healthy. -/
def zoneSpec (ndvi ndwi : ℚ) : ℕ :=
  if ndvi < 1/5 ∨ ndwi < -(1/5) then 0
  else if ndvi < 2/5 ∨ ndwi < 0 then 1
  else if ndvi < 3/5 then 2
  else 3

/-- Zone percentages returned by `classify_health_zones`
(`np.sum(zones == k) / total_pixels * 100`, modelled with `List.count`). -/
structure ZoneStats where
  critical_percent : ℚ
  stressed_percent : ℚ
  moderate_percent : ℚ
  healthy_percent : ℚ

/-- `SatelliteProcessor.classify_health_zones`: the zone map together with
the four percentage statistics. -/
def classifyHealthZones (ndvi ndwi : List ℚ) : List ℕ × ZoneStats :=
  let zones := List.zipWith zonePixel ndvi ndwi
  let total : ℚ := zones.length
  (zones,
   { critical_percent := (zones.count 0 : ℚ) / total * 100
     stressed_percent := (zones.count 1 : ℚ) / total * 100
     moderate_percent := (zones.count 2 : ℚ) / total * 100
     healthy_percent := (zones.count 3 : ℚ) / total * 100 })

/-- Spec-side zone percentage: pixels of zone `z` over ALL pixels of the
raster (no mask is involved), times 100. -/
def pctOfAllPixels (z : ℕ) (ndvi ndwi : List ℚ) : ℚ :=
  let zones := List.zipWith zonePixel ndvi ndwi
  ((zones.filter (fun x => decide (x = z))).length : ℚ) / zones.length * 100

/-! ## Python banker's rounding (`round(x, ndigits)`)

Python's `round` rounds half to even. -/

/-- `round(q)` for a rational `q`: nearest integer, ties to even. -/
def pyRound (q : ℚ) : ℤ :=
  if q - ⌊q⌋ < 1/2 then ⌊q⌋
  else if 1/2 < q - ⌊q⌋ then ⌊q⌋ + 1
  else if Even ⌊q⌋ then ⌊q⌋ else ⌊q⌋ + 1

/-- `round(q, d)`: round to `d` decimal digits, ties to even. -/
def pyRoundTo (d : ℕ) (q : ℚ) : ℚ := (pyRound (q * 10 ^ d) : ℚ) / 10 ^ d

/-! ## SatelliteProcessor.compute_health_score -/

/-- Core of `SatelliteProcessor.compute_health_score`, a function of the
two mean indices the code reads from `VegetationIndices`:
`ndvi_score = clip((m − 0.2)/0.6*100, 0, 100)`,
`ndwi_score = clip((m + 0.2)/0.6*100, 0, 100)`,
`round(0.7*ndvi_score + 0.3*ndwi_score, 1)`. -/
def healthScoreFn (ndviMean ndwiMean : ℚ) : ℚ :=
  let ndvi_score := npClip ((ndviMean - 1/5) / (3/5) * 100) 0 100
  let ndwi_score := npClip ((ndwiMean + 1/5) / (3/5) * 100) 0 100
  pyRoundTo 1 (7/10 * ndvi_score + 3/10 * ndwi_score)

/-- Spec-side health score, written from the spec's words:
`round(0.7 × clamp((mean_ndvi − 0.2)/0.6 × 100, 0, 100) +
0.3 × clamp((mean_ndwi + 0.2)/0.6 × 100, 0, 100), 1)`. -/
def healthScoreSpec (ndviMean ndwiMean : ℚ) : ℚ :=
  pyRoundTo 1
    (7/10 * max 0 (min 100 ((ndviMean - 1/5) / (3/5) * 100)) +
     3/10 * max 0 (min 100 ((ndwiMean + 1/5) / (3/5) * 100)))

/-! ## Yield predictor data model -/

/-- `CropType` enum. -/
inductive CropType where
  | wheat
  | rice
  | cotton
  | sugarcane
  | maize
  deriving DecidableEq

/-- One row of the `PAKISTAN_YIELDS` reference table (tons/hectare). -/
structure YieldStats where
  national_avg : ℚ
  punjab_avg : ℚ
  sindh_avg : ℚ
  optimal : ℚ
  min : ℚ

/-- The `PAKISTAN_YIELDS` reference table; every member of the crop enum
has an entry. -/
def PAKISTAN_YIELDS : CropType → YieldStats
  | .wheat => ⟨31/10, 33/10, 14/5, 5, 3/2⟩
  | .rice => ⟨14/5, 5/2, 16/5, 9/2, 6/5⟩
  | .cotton => ⟨4/5, 17/20, 3/4, 3/2, 3/10⟩
  | .sugarcane => ⟨55, 58, 52, 80, 30⟩
  | .maize => ⟨11/2, 29/5, 9/2, 8, 5/2⟩

/-- `FarmFeatures` input record (the `datetime` field `planting_date` is
omitted: it is consumed only by `prepare_features` through the wall
clock, which no claim concerns). -/
structure FarmFeatures where
  farm_id : ℤ
  crop_type : CropType
  area_hectares : ℚ
  ndvi_series : List ℚ
  current_ndvi : ℚ
  current_ndwi : ℚ
  current_savi : ℚ
  avg_temperature : ℚ
  total_rainfall_mm : ℚ
  humidity_percent : ℚ
  soil_ph : ℚ
  soil_nitrogen : ℚ
  soil_phosphorus : ℚ
  soil_potassium : ℚ
  irrigation_type : String
  fertilizer_applied_kg : ℚ
  district : String
  province : String

/-- `irrigation_factors.get(farm.irrigation_type, 0.8)` for the dict
`{"canal": 1.0, "tubewell": 0.95, "rainfed": 0.7}`. -/
def irrigationFactorOf (s : String) : ℚ :=
  if s = "canal" then 1
  else if s = "tubewell" then 19/20
  else if s = "rainfed" then 7/10
  else 4/5

/-- The deterministic part of `XGBoostYieldModel.predict`, up to the line
`predicted = min_yield + combined_factor * yield_range`.  (The preceding
`base_yield = ...["national_avg"]` of the source is dead code: the value
is never used.) -/
def xgbPredictRaw (farm : FarmFeatures) : ℚ :=
  let stats := PAKISTAN_YIELDS farm.crop_type
  let optimal_yield := stats.optimal
  let min_yield := stats.min
  let ndvi_factor := npClip ((farm.current_ndvi - 3/10) / (2/5)) 0 1
  let water_factor := npClip ((farm.current_ndwi + 1/5) / (1/2)) 0 1
  let irrigation_factor := irrigationFactorOf farm.irrigation_type
  let combined_factor := 1/2 * ndvi_factor + 3/10 * water_factor + 1/5 * irrigation_factor
  let yield_range := optimal_yield - min_yield
  min_yield + combined_factor * yield_range

/-- `XGBoostYieldModel.predict`: the deterministic value is multiplied by
`(1 + noise)` — in the source `noise = np.random.normal(0, 0.05)` from the
global RNG, here an explicit parameter — and clipped to
`[min_yield, optimal_yield]`. -/
def xgbPredict (farm : FarmFeatures) (noise : ℚ) : ℚ :=
  let stats := PAKISTAN_YIELDS farm.crop_type
  npClip (xgbPredictRaw farm * (1 + noise)) stats.min stats.optimal

/-- Spec-side point estimate, written from the spec's words:
`clamp(min_yield + (0.5·ndvi_factor + 0.3·water_factor +
0.2·irrigation_factor) × (optimal_yield − min_yield), min_yield,
optimal_yield)` with the three clamped factors of §4.5. -/
def specPointEstimate (farm : FarmFeatures) : ℚ :=
  let stats := PAKISTAN_YIELDS farm.crop_type
  let ndviF := max 0 (min 1 ((farm.current_ndvi - 3/10) / (2/5)))
  let waterF := max 0 (min 1 ((farm.current_ndwi + 1/5) / (1/2)))
  let irrF :=
    if farm.irrigation_type = "canal" then 1
    else if farm.irrigation_type = "tubewell" then 19/20
    else if farm.irrigation_type = "rainfed" then 7/10
    else (4/5 : ℚ)
  let combined := 1/2 * ndviF + 3/10 * waterF + 1/5 * irrF
  max stats.min (min stats.optimal (stats.min + combined * (stats.optimal - stats.min)))

/-- The spec's typed failure kinds for yield prediction (§7); they have no
counterpart anywhere in the source. -/
inductive YieldError where
  | unknownCrop
  | invalidFeatures
  deriving DecidableEq

/-- Modelled from the spec: the failure contract of §4.5/§7 — an
`InvalidFeatureVector` failure for `area ≤ 0` (an `UnknownCropType`
failure cannot arise since the crop enum is fully covered by the table);
otherwise the computed estimate.  The source has no such checks. -/
def specCheckedPredict (farm : FarmFeatures) (noise : ℚ) : Except YieldError ℚ :=
  if farm.area_hectares ≤ 0 then .error .invalidFeatures
  else .ok (xgbPredict farm noise)

/-- The fields of `YieldPrediction` that the verified claims concern. -/
structure YieldPredictionR where
  predicted_yield : ℚ
  ci_low : ℚ
  ci_high : ℚ
  confidence_percent : ℚ
  district_average : ℚ
  province_average : ℚ
  national_average : ℚ
  percentile : ℤ

/-- `YieldPredictor.predict`: point prediction from the XGBoost model,
`std_error = 0.15 * predicted`, interval `predicted ∓ 1.96 * std_error`,
province lookup, percentile `int(clip((p − min)/(optimal − min)*100, 0,
100))` (the argument is nonnegative, so `int` truncation is `⌊·⌋`), and
rounding of the three yield figures to 2 decimals. -/
def yieldPredictorPredict (farm : FarmFeatures) (noise : ℚ) : YieldPredictionR :=
  let predicted_yield := xgbPredict farm noise
  let std_error := 3/20 * predicted_yield
  let ci_low := predicted_yield - 49/25 * std_error
  let ci_high := predicted_yield + 49/25 * std_error
  let crop_stats := PAKISTAN_YIELDS farm.crop_type
  let national_avg := crop_stats.national_avg
  let province_avg :=
    if farm.province.toLower = "punjab" then crop_stats.punjab_avg
    else if farm.province.toLower = "sindh" then crop_stats.sindh_avg
    else national_avg
  let percentile :=
    ⌊npClip ((predicted_yield - crop_stats.min) /
        (crop_stats.optimal - crop_stats.min) * 100) 0 100⌋
  { predicted_yield := pyRoundTo 2 predicted_yield
    ci_low := pyRoundTo 2 ci_low
    ci_high := pyRoundTo 2 ci_high
    confidence_percent := 85
    district_average := province_avg * (19/20)
    province_average := province_avg
    national_average := national_avg
    percentile := percentile }

/-! ## LSTMTimeSeriesEncoder.encode -/

/-- `np.mean` over a rational list. -/
def npMeanQ (l : List ℚ) : ℚ := l.sum / l.length

/-- Population variance (the square of `np.std`). -/
def npVarQ (l : List ℚ) : ℚ := ((l.map (fun x => (x - npMeanQ l) ^ 2)).sum) / l.length

/-- `np.std` (population standard deviation). -/
noncomputable def npStdR (l : List ℚ) : ℝ := Real.sqrt ((npVarQ l : ℚ) : ℝ)

/-- `np.max` over a nonempty list (0 on the empty list, which the code
never hits on the encoder path). -/
def listMax : List ℚ → ℚ
  | [] => 0
  | x :: xs => xs.foldl max x

/-- `np.min` over a nonempty list. -/
def listMin : List ℚ → ℚ
  | [] => 0
  | x :: xs => xs.foldl min x

/-- `np.diff`: consecutive differences `s[i+1] - s[i]`. -/
def npDiff (l : List ℚ) : List ℚ := List.zipWith (fun a b => b - a) l l.tail

/-- `LSTMTimeSeriesEncoder.encode`: all-zero 8-vector for fewer than 3
observations, otherwise `[mean, std, max, min, s[-1]-s[0], s[-1],
mean(diff), max(diff)]`. -/
noncomputable def lstmEncode (s : List ℚ) : List ℝ :=
  if s.length < 3 then List.replicate 8 0
  else [(npMeanQ s : ℝ), npStdR s, (listMax s : ℝ), (listMin s : ℝ),
        ((s.getLastD 0 - s.headD 0 : ℚ) : ℝ), ((s.getLastD 0 : ℚ) : ℝ),
        (npMeanQ (npDiff s) : ℝ), (listMax (npDiff s) : ℝ)]

/-! ## SatelliteProcessor.process_image -/

/-- The bands of `SatelliteImage` that `process_image` reads. -/
structure SatelliteImageR where
  blue : List ℚ
  green : List ℚ
  red : List ℚ
  nir : List ℚ
  cloud_mask : Option (List Bool)

/-- `valid_mask = mask & (ndvi > -1) & (ndvi < 1)`. -/
def validMask (mask : List Bool) (ndvi : List ℚ) : List Bool :=
  List.zipWith (fun m v => m && decide ((-1 : ℚ) < v) && decide (v < 1)) mask ndvi

/-- Numpy boolean-mask selection `vals[mask]`. -/
def boolSelect (vals : List ℚ) (mask : List Bool) : List ℚ :=
  (List.zip vals mask).filterMap (fun p => if p.2 then some p.1 else none)

/-- The `VegetationIndices` record produced by `process_image`. -/
structure VegetationIndicesR where
  ndvi : List ℚ
  ndwi : List ℚ
  savi : List ℚ
  evi : Option (List ℚ)
  ndvi_mean : ℚ
  ndvi_std : ℝ
  ndwi_mean : ℚ
  ndwi_std : ℝ
  savi_mean : ℚ

/-- `SatelliteProcessor.process_image`: indices from the bands, the valid
mask `mask & (-1 < ndvi) & (ndvi < 1)` (mask defaults to all-ones when no
cloud mask is given), and statistics over the valid pixels with a 0.0
default when `valid_mask.any()` is false. -/
noncomputable def processImage (img : SatelliteImageR) : VegetationIndicesR :=
  let mask := img.cloud_mask.getD (List.replicate img.red.length true)
  let ndvi := computeNdvi img.nir img.red
  let ndwi := computeNdwi img.nir img.green
  let savi := computeSavi img.nir img.red
  let evi := some (computeEvi img.nir img.red img.blue)
  let valid := validMask mask ndvi
  let anyValid := valid.any id
  { ndvi := ndvi
    ndwi := ndwi
    savi := savi
    evi := evi
    ndvi_mean := if anyValid then npMeanQ (boolSelect ndvi valid) else 0
    ndvi_std := if anyValid then npStdR (boolSelect ndvi valid) else 0
    ndwi_mean := if anyValid then npMeanQ (boolSelect ndwi valid) else 0
    ndwi_std := if anyValid then npStdR (boolSelect ndwi valid) else 0
    savi_mean := if anyValid then npMeanQ (boolSelect savi valid) else 0 }

/-- `SatelliteProcessor.compute_health_score` reads exactly the two mean
fields of the indices record. -/
def computeHealthScore (ind : VegetationIndicesR) : ℚ :=
  healthScoreFn ind.ndvi_mean ind.ndwi_mean

/-- Spec-side selection of valid pixels, written independently as a
structural recursion over the two lists. -/
def selectValid : List ℚ → List Bool → List ℚ
  | v :: vs, true :: ms => v :: selectValid vs ms
  | _ :: vs, false :: ms => selectValid vs ms
  | _, _ => []

/-- Spec-side masked mean: mean over the valid pixels, 0 when none remain. -/
def meanOverValidSpec (vals : List ℚ) (valid : List Bool) : ℚ :=
  let s := selectValid vals valid
  if s = [] then 0 else s.sum / s.length

/-! ## Concrete inputs -/

/-- The sample farm of the source's `__main__` block. -/
def demoFarm : FarmFeatures :=
  { farm_id := 1
    crop_type := .wheat
    area_hectares := 2
    ndvi_series := [9/20, 12/25, 13/25, 11/20, 29/50, 3/5, 31/50, 63/100, 16/25, 13/20]
    current_ndvi := 13/20
    current_ndwi := 7/20
    current_savi := 29/50
    avg_temperature := 22
    total_rainfall_mm := 150
    humidity_percent := 65
    soil_ph := 36/5
    soil_nitrogen := 180
    soil_phosphorus := 25
    soil_potassium := 150
    irrigation_type := "canal"
    fertilizer_applied_kg := 150
    district := "Faisalabad"
    province := "Punjab" }

/-- The demo farm with a non-positive area. -/
def farmNegArea : FarmFeatures := { demoFarm with area_hectares := -1 }

/-- A one-pixel scene whose single pixel is cloud-masked out. -/
def imgAllMasked : SatelliteImageR :=
  { blue := [1/10]
    green := [3/20]
    red := [3/20]
    nir := [1/2]
    cloud_mask := some [false] }

/-! # Helper lemmas -/

lemma npClip_eq_max_min (x lo hi : ℚ) (h : lo ≤ hi) :
    npClip x lo hi = max lo (min hi x) := by
  unfold npClip
  rw [max_min_distrib_left, max_eq_right h, min_comm hi (max lo x), max_comm lo x]

lemma npClip_le (x lo hi : ℚ) : npClip x lo hi ≤ hi := min_le_right _ _

lemma le_npClip (x lo hi : ℚ) (h : lo ≤ hi) : lo ≤ npClip x lo hi :=
  le_min (le_max_right _ _) h

lemma npClip_mono (lo hi : ℚ) {x y : ℚ} (h : x ≤ y) :
    npClip x lo hi ≤ npClip y lo hi :=
  min_le_min (max_le_max h le_rfl) le_rfl

lemma zonePixel_eq_zoneSpec (ndvi ndwi : ℚ) : zonePixel ndvi ndwi = zoneSpec ndvi ndwi := by
  simp only [zonePixel, zoneSpec, criticalMask, stressedMask, moderateMask, healthyMask]
  split_ifs <;> first | rfl | tauto

set_option maxHeartbeats 1600000 in
lemma zonePixel_masks_partition (ndvi ndwi : ℚ) :
    (if criticalMask ndvi ndwi then 1 else 0) + (if stressedMask ndvi ndwi then 1 else 0) +
      (if moderateMask ndvi ndwi then 1 else 0) + (if healthyMask ndvi ndwi then 1 else 0) = 1 := by
  simp only [criticalMask, stressedMask, moderateMask, healthyMask]
  split_ifs <;> first | rfl | tauto

lemma zonePixel_le_three (ndvi ndwi : ℚ) : zonePixel ndvi ndwi ≤ 3 := by
  unfold zonePixel
  split <;> split <;> split <;> split <;> norm_num

lemma zipWith_bound :
    ∀ (l l' : List ℚ), ∀ x ∈ List.zipWith zonePixel l l', x ≤ 3 := by
  intro l
  induction l with
  | nil => intro l' x hx; simp at hx
  | cons a t ih =>
      intro l' x hx
      cases l' with
      | nil => simp at hx
      | cons b t' =>
          rcases List.mem_cons.mp hx with h | h
          · exact h ▸ zonePixel_le_three a b
          · exact ih t' x h

lemma count_partition (l : List ℕ) (h : ∀ x ∈ l, x ≤ 3) :
    l.count 0 + l.count 1 + l.count 2 + l.count 3 = l.length := by
  induction l with
  | nil => simp
  | cons a t ih =>
      have ha : a ≤ 3 := h a (List.mem_cons_self a t)
      have ht := ih (fun x hx => h x (List.mem_cons_of_mem a hx))
      simp only [List.count_cons, List.length_cons]
      interval_cases a <;> simp <;> omega

lemma pyRound_lower (q : ℚ) : ⌊q⌋ ≤ pyRound q := by
  unfold pyRound; split_ifs <;> omega

lemma pyRound_upper (q : ℚ) : pyRound q ≤ ⌊q⌋ + 1 := by
  unfold pyRound; split_ifs <;> omega

lemma pyRound_mono {a b : ℚ} (h : a ≤ b) : pyRound a ≤ pyRound b := by
  have hf : ⌊a⌋ ≤ ⌊b⌋ := Int.floor_le_floor h
  rcases lt_or_eq_of_le hf with hlt | heq
  · calc pyRound a ≤ ⌊a⌋ + 1 := pyRound_upper a
      _ ≤ ⌊b⌋ := by omega
      _ ≤ pyRound b := pyRound_lower b
  · have hfr : a - (⌊a⌋ : ℚ) ≤ b - (⌊b⌋ : ℚ) := by
      rw [← heq]; linarith
    unfold pyRound
    rw [heq] at hfr ⊢
    split_ifs <;> first | omega | linarith

lemma pyRound_intCast (n : ℤ) : pyRound (n : ℚ) = n := by
  unfold pyRound
  rw [Int.floor_intCast]
  norm_num

lemma pyRoundTo_mono (d : ℕ) {a b : ℚ} (h : a ≤ b) : pyRoundTo d a ≤ pyRoundTo d b := by
  unfold pyRoundTo
  have h1 : pyRound (a * 10 ^ d) ≤ pyRound (b * 10 ^ d) :=
    pyRound_mono (mul_le_mul_of_nonneg_right h (by positivity))
  have h2 : ((pyRound (a * 10 ^ d) : ℚ)) ≤ (pyRound (b * 10 ^ d) : ℚ) := by exact_mod_cast h1
  exact (div_le_div_iff_of_pos_right (by positivity)).mpr h2

lemma pyRoundTo_eq_self {d : ℕ} {q : ℚ} {n : ℤ} (h : q * 10 ^ d = (n : ℚ)) :
    pyRoundTo d q = q := by
  have h10 : ((10 : ℚ) ^ d) ≠ 0 := by positivity
  unfold pyRoundTo
  rw [h, pyRound_intCast, ← h]
  exact mul_div_cancel_right₀ q h10

lemma pyRoundTo_le_of_le {d : ℕ} {q M : ℚ} {n : ℤ} (hM : M * 10 ^ d = (n : ℚ))
    (h : q ≤ M) : pyRoundTo d q ≤ M := by
  rw [← pyRoundTo_eq_self hM]
  exact pyRoundTo_mono d h

lemma le_pyRoundTo_of_le {d : ℕ} {q m : ℚ} {n : ℤ} (hm : m * 10 ^ d = (n : ℚ))
    (h : m ≤ q) : m ≤ pyRoundTo d q := by
  rw [← pyRoundTo_eq_self hm]
  exact pyRoundTo_mono d h

lemma count_eq_filter_length (z : ℕ) (l : List ℕ) :
    l.count z = (l.filter (fun x => decide (x = z))).length := by
  induction l with
  | nil => rfl
  | cons a t ih => by_cases h : a = z <;> simp [List.count_cons, List.filter_cons, h, ih]

lemma boolSelect_eq_selectValid :
    ∀ (vals : List ℚ) (mask : List Bool), boolSelect vals mask = selectValid vals mask := by
  intro vals
  induction vals with
  | nil => intro mask; cases mask <;> rfl
  | cons v vs ih =>
      intro mask
      cases mask with
      | nil => rfl
      | cons m ms =>
          cases m
          · simpa [boolSelect, selectValid] using ih ms
          · simpa [boolSelect, selectValid] using ih ms

lemma selectValid_of_all_false :
    ∀ (mask : List Bool), mask.any id = false → ∀ vals : List ℚ, selectValid vals mask = [] := by
  intro mask
  induction mask with
  | nil => intro _ vals; cases vals <;> rfl
  | cons m ms ih =>
      intro h vals
      cases m
      · cases vals with
        | nil => rfl
        | cons v vs =>
            have hms := ih (by simpa using h) vs
            simpa [selectValid] using hms
      · simp at h

lemma meanOverValidSpec_eq (vals : List ℚ) (mask : List Bool) :
    meanOverValidSpec vals mask = npMeanQ (selectValid vals mask) := by
  unfold meanOverValidSpec npMeanQ
  by_cases h : selectValid vals mask = [] <;> simp [h]

/-! # Claim theorems -/

/-- Claim C1: each of the four index computations returns exactly the spec
formula with a zero denominator replaced by the positive epsilon `1e-10`
and the result clamped to `[-1, 1]`; every output value lies in `[-1, 1]`,
and the whole-raster functions apply the per-pixel formula elementwise. -/
theorem C1_index_formulas :
    (∀ nir red : ℚ, ndviPixel nir red = ndviSpec nir red ∧
      -1 ≤ ndviPixel nir red ∧ ndviPixel nir red ≤ 1) ∧
    (∀ nir green : ℚ, ndwiPixel nir green = ndwiSpec nir green ∧
      -1 ≤ ndwiPixel nir green ∧ ndwiPixel nir green ≤ 1) ∧
    (∀ nir red : ℚ, saviPixel nir red SAVI_L = saviSpec nir red (1/2) ∧
      -1 ≤ saviPixel nir red SAVI_L ∧ saviPixel nir red SAVI_L ≤ 1) ∧
    (∀ nir red blue : ℚ, eviPixel nir red blue = eviSpec nir red blue ∧
      -1 ≤ eviPixel nir red blue ∧ eviPixel nir red blue ≤ 1) ∧
    (∀ nir red, computeNdvi nir red = List.zipWith ndviPixel nir red) ∧
    (∀ nir green, computeNdwi nir green = List.zipWith ndwiPixel nir green) ∧
    (∀ nir red blue, computeEvi nir red blue = List.zipWith₃ eviPixel nir red blue) := by
  refine ⟨fun nir red => ?_, fun nir green => ?_, fun nir red => ?_,
    fun nir red blue => ?_, fun _ _ => rfl, fun _ _ => rfl, fun _ _ _ => rfl⟩
  · unfold ndviPixel ndviSpec
    exact ⟨by rw [npClip_eq_max_min _ _ _ (by norm_num)],
      le_npClip _ _ _ (by norm_num), npClip_le _ _ _⟩
  · unfold ndwiPixel ndwiSpec
    exact ⟨by rw [npClip_eq_max_min _ _ _ (by norm_num)],
      le_npClip _ _ _ (by norm_num), npClip_le _ _ _⟩
  · unfold saviPixel saviSpec SAVI_L
    exact ⟨by rw [npClip_eq_max_min _ _ _ (by norm_num)],
      le_npClip _ _ _ (by norm_num), npClip_le _ _ _⟩
  · unfold eviPixel eviSpec EVI_G EVI_C1 EVI_C2 EVI_L
    exact ⟨by rw [npClip_eq_max_min _ _ _ (by norm_num)],
      le_npClip _ _ _ (by norm_num), npClip_le _ _ _⟩

/-- Claim C2: each pixel is classified by the spec's priority order —
critical (0) if NDVI < 0.2 or NDWI < −0.2, else stressed (1) if
NDVI < 0.4 or NDWI < 0, else moderate (2) if NDVI < 0.6, else healthy (3);
the first matching rule wins and exactly one of the four zone masks holds
per pixel, and the raster zone map applies this rule pixelwise. -/
theorem C2_zone_policy :
    (∀ ndvi ndwi : ℚ, zonePixel ndvi ndwi = zoneSpec ndvi ndwi) ∧
    (∀ ndvi ndwi : ℚ,
      (if criticalMask ndvi ndwi then 1 else 0) + (if stressedMask ndvi ndwi then 1 else 0) +
        (if moderateMask ndvi ndwi then 1 else 0) + (if healthyMask ndvi ndwi then 1 else 0) = 1) ∧
    (∀ ndvi ndwi : List ℚ,
      (classifyHealthZones ndvi ndwi).1 = List.zipWith zonePixel ndvi ndwi) :=
  ⟨zonePixel_eq_zoneSpec, zonePixel_masks_partition, fun _ _ => rfl⟩

/-- Claim C8: for any NDVI/NDWI rasters producing a non-empty zone map,
the four zone percentages returned by `classify_health_zones` sum to
exactly 100. -/
theorem C8_percent_sum (ndvi ndwi : List ℚ)
    (h : (classifyHealthZones ndvi ndwi).1 ≠ []) :
    (classifyHealthZones ndvi ndwi).2.critical_percent +
      (classifyHealthZones ndvi ndwi).2.stressed_percent +
      (classifyHealthZones ndvi ndwi).2.moderate_percent +
      (classifyHealthZones ndvi ndwi).2.healthy_percent = 100 := by
  unfold classifyHealthZones at *
  set zones := List.zipWith zonePixel ndvi ndwi with hz
  simp only at h ⊢
  have hb : ∀ x ∈ zones, x ≤ 3 := by
    rw [hz]
    exact zipWith_bound ndvi ndwi
  have hc := count_partition zones hb
  have hn : (zones.length : ℚ) ≠ 0 := by
    simpa [List.length_eq_zero] using h
  field_simp
  push_cast [← hc]
  ring

/-- Witness for C8 at a concrete one-pixel raster. -/
theorem C8_percent_sum_witness :
    (classifyHealthZones [1/2] [1/10]).1 ≠ [] ∧
    (classifyHealthZones [1/2] [1/10]).2.critical_percent +
      (classifyHealthZones [1/2] [1/10]).2.stressed_percent +
      (classifyHealthZones [1/2] [1/10]).2.moderate_percent +
      (classifyHealthZones [1/2] [1/10]).2.healthy_percent = 100 :=
  ⟨by decide, C8_percent_sum [1/2] [1/10] (by decide)⟩

/-- Claim C9: `compute_health_score` equals the spec's
`round(0.7·clamp((ndvi_mean − 0.2)/0.6·100, 0, 100) +
0.3·clamp((ndwi_mean + 0.2)/0.6·100, 0, 100), 1)` and is monotonically
non-decreasing in each mean with the other held fixed. -/
theorem C9_health_score :
    (∀ ind : VegetationIndicesR,
      computeHealthScore ind = healthScoreSpec ind.ndvi_mean ind.ndwi_mean) ∧
    (∀ a a' b : ℚ, a ≤ a' → healthScoreFn a b ≤ healthScoreFn a' b) ∧
    (∀ a b b' : ℚ, b ≤ b' → healthScoreFn a b ≤ healthScoreFn a b') := by
  refine ⟨fun ind => ?_, fun a a' b h => ?_, fun a b b' h => ?_⟩
  · unfold computeHealthScore healthScoreFn healthScoreSpec
    rw [npClip_eq_max_min _ _ _ (by norm_num), npClip_eq_max_min _ _ _ (by norm_num)]
  · unfold healthScoreFn
    apply pyRoundTo_mono
    have h1 : npClip ((a - 1/5) / (3/5) * 100) 0 100 ≤
        npClip ((a' - 1/5) / (3/5) * 100) 0 100 :=
      npClip_mono _ _ (by linarith)
    linarith
  · unfold healthScoreFn
    apply pyRoundTo_mono
    have h1 : npClip ((b + 1/5) / (3/5) * 100) 0 100 ≤
        npClip ((b' + 1/5) / (3/5) * 100) 0 100 :=
      npClip_mono _ _ (by linarith)
    linarith

/-- Witness for C9's monotonicity at concrete inputs. -/
theorem C9_health_score_witness :
    ((1:ℚ)/2 ≤ 3/5 ∧ healthScoreFn (1/2) (1/10) ≤ healthScoreFn (3/5) (1/10)) ∧
    ((0:ℚ) ≤ 1/10 ∧ healthScoreFn (1/2) 0 ≤ healthScoreFn (1/2) (1/10)) :=
  ⟨⟨by norm_num, C9_health_score.2.1 (1/2) (3/5) (1/10) (by norm_num)⟩,
   ⟨by norm_num, C9_health_score.2.2 (1/2) 0 (1/10) (by norm_num)⟩⟩

lemma crop_min_pos (c : CropType) : 0 < (PAKISTAN_YIELDS c).min := by
  cases c <;> norm_num [PAKISTAN_YIELDS]

lemma crop_min_le_optimal (c : CropType) :
    (PAKISTAN_YIELDS c).min ≤ (PAKISTAN_YIELDS c).optimal := by
  cases c <;> norm_num [PAKISTAN_YIELDS]

lemma crop_min_int (c : CropType) : ∃ n : ℤ, (PAKISTAN_YIELDS c).min * 10 ^ 2 = (n : ℚ) := by
  cases c
  exacts [⟨150, by norm_num [PAKISTAN_YIELDS]⟩, ⟨120, by norm_num [PAKISTAN_YIELDS]⟩,
    ⟨30, by norm_num [PAKISTAN_YIELDS]⟩, ⟨3000, by norm_num [PAKISTAN_YIELDS]⟩,
    ⟨250, by norm_num [PAKISTAN_YIELDS]⟩]

lemma crop_optimal_int (c : CropType) :
    ∃ n : ℤ, (PAKISTAN_YIELDS c).optimal * 10 ^ 2 = (n : ℚ) := by
  cases c
  exacts [⟨500, by norm_num [PAKISTAN_YIELDS]⟩, ⟨450, by norm_num [PAKISTAN_YIELDS]⟩,
    ⟨150, by norm_num [PAKISTAN_YIELDS]⟩, ⟨8000, by norm_num [PAKISTAN_YIELDS]⟩,
    ⟨800, by norm_num [PAKISTAN_YIELDS]⟩]

lemma xgbPredict_mem (farm : FarmFeatures) (noise : ℚ) :
    (PAKISTAN_YIELDS farm.crop_type).min ≤ xgbPredict farm noise ∧
      xgbPredict farm noise ≤ (PAKISTAN_YIELDS farm.crop_type).optimal :=
  ⟨le_npClip _ _ _ (crop_min_le_optimal _), npClip_le _ _ _⟩

/-- Claim C3 counterexample: for the RNG draw `noise = 0.05` — a draw of
positive density for `np.random.normal(0, 0.05)` — `predict` on the
source's own demo farm does not return the spec's point-estimate formula
(it returns 5.0 after noise and clipping, not 4.78125). -/
theorem C3_counterexample :
    xgbPredict demoFarm (1/20) ≠ specPointEstimate demoFarm := by
  have h1 : xgbPredict demoFarm (1/20) = 5 := by
    norm_num [xgbPredict, xgbPredictRaw, irrigationFactorOf, demoFarm, PAKISTAN_YIELDS,
      npClip, min_def, max_def]
  have h2 : specPointEstimate demoFarm = 153/32 := by
    norm_num [specPointEstimate, demoFarm, PAKISTAN_YIELDS, min_def, max_def]
  rw [h1, h2]
  norm_num

/-- Claim C3 (amended): `predict` returns the spec's combined-factor point
estimate multiplied by `(1 + noise)` — `noise` the global-RNG draw — and
then clamped to `[min_yield, optimal_yield]`; only for the draw
`noise = 0` does it equal the spec formula exactly. -/
theorem C3_point_estimate (farm : FarmFeatures) (noise : ℚ) :
    xgbPredict farm noise =
      npClip (xgbPredictRaw farm * (1 + noise))
        (PAKISTAN_YIELDS farm.crop_type).min (PAKISTAN_YIELDS farm.crop_type).optimal ∧
    xgbPredict farm 0 = specPointEstimate farm := by
  constructor
  · rfl
  · have h01 : ∀ x : ℚ, npClip x 0 1 = max 0 (min 1 x) := fun x =>
      npClip_eq_max_min x 0 1 (by norm_num)
    simp only [xgbPredict, xgbPredictRaw, specPointEstimate, irrigationFactorOf, h01,
      npClip_eq_max_min _ _ _ (crop_min_le_optimal farm.crop_type), add_zero, mul_one]

/-- Claim C4 counterexample: two invocations of `predict` on the same
farm differ when the global RNG yields different draws (0 versus 0.05),
so the result is not a function of the input arguments alone. -/
theorem C4_counterexample :
    xgbPredict demoFarm 0 ≠ xgbPredict demoFarm (1/20) := by
  have h1 : xgbPredict demoFarm 0 = 153/32 := by
    norm_num [xgbPredict, xgbPredictRaw, irrigationFactorOf, demoFarm, PAKISTAN_YIELDS,
      npClip, min_def, max_def]
  have h2 : xgbPredict demoFarm (1/20) = 5 := by
    norm_num [xgbPredict, xgbPredictRaw, irrigationFactorOf, demoFarm, PAKISTAN_YIELDS,
      npClip, min_def, max_def]
  rw [h1, h2]
  norm_num

/-- Claim C4 (amended): with the RNG draw made explicit, `predict` is a
deterministic function of the draw and of exactly the fields it reads
(crop type, current NDVI, current NDWI, irrigation type) — farms agreeing
on those fields get identical predictions for the same draw. -/
theorem C4_determinism (f g : FarmFeatures) (noise : ℚ)
    (hc : f.crop_type = g.crop_type) (h1 : f.current_ndvi = g.current_ndvi)
    (h2 : f.current_ndwi = g.current_ndwi) (h3 : f.irrigation_type = g.irrigation_type) :
    xgbPredict f noise = xgbPredict g noise := by
  unfold xgbPredict xgbPredictRaw
  rw [hc, h1, h2, h3]

/-- Witness for C4 (amended): the demo farm and its negative-area variant
agree on the four read fields and get the same prediction. -/
theorem C4_determinism_witness :
    (demoFarm.crop_type = farmNegArea.crop_type ∧
     demoFarm.current_ndvi = farmNegArea.current_ndvi ∧
     demoFarm.current_ndwi = farmNegArea.current_ndwi ∧
     demoFarm.irrigation_type = farmNegArea.irrigation_type) ∧
    xgbPredict demoFarm 0 = xgbPredict farmNegArea 0 :=
  ⟨⟨rfl, rfl, rfl, rfl⟩, C4_determinism demoFarm farmNegArea 0 rfl rfl rfl rfl⟩

/-- Claim C5 counterexample: on a farm with `area_hectares = -1 ≤ 0` the
spec demands an `InvalidFeatureVector` failure, but the source's
`predict` silently computes the ordinary numeric result 153/32
(= 4.78125): no typed failure exists anywhere in the code. -/
theorem C5_counterexample :
    farmNegArea.area_hectares ≤ 0 ∧
    specCheckedPredict farmNegArea 0 = .error .invalidFeatures ∧
    xgbPredict farmNegArea 0 = 153/32 := by
  refine ⟨by norm_num [farmNegArea, demoFarm], ?_, ?_⟩
  · unfold specCheckedPredict
    rw [if_pos (by norm_num [farmNegArea, demoFarm])]
  · norm_num [xgbPredict, xgbPredictRaw, irrigationFactorOf, farmNegArea, demoFarm,
      PAKISTAN_YIELDS, npClip, min_def, max_def]

/-- Claim C5 (amended): `predict` performs no validation — its result does
not depend on `area_hectares` at all, and even for `area ≤ 0` it silently
returns a value inside `[min_yield, optimal_yield]` instead of failing;
the crop lookup is total on the enum, so no unknown-crop failure can
arise either. -/
theorem C5_no_validation (farm : FarmFeatures) (noise q : ℚ)
    (_h : farm.area_hectares ≤ 0) :
    xgbPredict farm noise = xgbPredict { farm with area_hectares := q } noise ∧
    (PAKISTAN_YIELDS farm.crop_type).min ≤ xgbPredict farm noise ∧
    xgbPredict farm noise ≤ (PAKISTAN_YIELDS farm.crop_type).optimal :=
  ⟨rfl, xgbPredict_mem farm noise⟩

/-- Witness for C5 (amended) at the concrete negative-area farm. -/
theorem C5_no_validation_witness :
    farmNegArea.area_hectares ≤ 0 ∧
    (xgbPredict farmNegArea 0 = xgbPredict { farmNegArea with area_hectares := 1 } 0 ∧
     (PAKISTAN_YIELDS farmNegArea.crop_type).min ≤ xgbPredict farmNegArea 0 ∧
     xgbPredict farmNegArea 0 ≤ (PAKISTAN_YIELDS farmNegArea.crop_type).optimal) :=
  ⟨by norm_num [farmNegArea, demoFarm],
   C5_no_validation farmNegArea 0 1 (by norm_num [farmNegArea, demoFarm])⟩

/-- Claim C7: for every farm (crop types are always known — the table
covers the enum) and every RNG draw, the returned forecast's rounded
point estimate lies in `[min_yield, optimal_yield]` and its confidence
interval `predicted ∓ 1.96·(0.15·predicted)` brackets it. -/
theorem C7_forecast_bounds (farm : FarmFeatures) (noise : ℚ) :
    (PAKISTAN_YIELDS farm.crop_type).min ≤ (yieldPredictorPredict farm noise).predicted_yield ∧
    (yieldPredictorPredict farm noise).predicted_yield ≤ (PAKISTAN_YIELDS farm.crop_type).optimal ∧
    (yieldPredictorPredict farm noise).ci_low ≤ (yieldPredictorPredict farm noise).predicted_yield ∧
    (yieldPredictorPredict farm noise).predicted_yield ≤ (yieldPredictorPredict farm noise).ci_high := by
  obtain ⟨hmin, hmax⟩ := xgbPredict_mem farm noise
  have hp0 : 0 < xgbPredict farm noise := lt_of_lt_of_le (crop_min_pos _) hmin
  obtain ⟨nm, hnm⟩ := crop_min_int farm.crop_type
  obtain ⟨nM, hnM⟩ := crop_optimal_int farm.crop_type
  have e1 : (yieldPredictorPredict farm noise).predicted_yield =
      pyRoundTo 2 (xgbPredict farm noise) := rfl
  have e2 : (yieldPredictorPredict farm noise).ci_low =
      pyRoundTo 2 (xgbPredict farm noise - 49/25 * (3/20 * xgbPredict farm noise)) := rfl
  have e3 : (yieldPredictorPredict farm noise).ci_high =
      pyRoundTo 2 (xgbPredict farm noise + 49/25 * (3/20 * xgbPredict farm noise)) := rfl
  refine ⟨?_, ?_, ?_, ?_⟩
  · rw [e1]; exact le_pyRoundTo_of_le hnm hmin
  · rw [e1]; exact pyRoundTo_le_of_le hnM hmax
  · rw [e1, e2]; exact pyRoundTo_mono 2 (by linarith)
  · rw [e1, e3]; exact pyRoundTo_mono 2 (by linarith)

/-- Claim C6: the time-series encoder returns the all-zero 8-vector for
fewer than 3 readings; for 3 or more it returns exactly
`[mean, std, max, min, last − first, last, mean(diff), max(diff)]`; on
the literal series `[0.4, 0.5, 0.6]` the mean is 0.5, the trend
(`last − first`) is 0.2 and the last value is 0.6. -/
theorem C6_encoder :
    (∀ s : List ℚ, s.length < 3 → lstmEncode s = List.replicate 8 0) ∧
    (∀ s : List ℚ, 3 ≤ s.length →
      lstmEncode s = [(npMeanQ s : ℝ), npStdR s, (listMax s : ℝ), (listMin s : ℝ),
        ((s.getLastD 0 - s.headD 0 : ℚ) : ℝ), ((s.getLastD 0 : ℚ) : ℝ),
        (npMeanQ (npDiff s) : ℝ), (listMax (npDiff s) : ℝ)]) ∧
    ((lstmEncode [2/5, 1/2, 3/5]).get? 0 = some ((1 : ℝ)/2) ∧
     (lstmEncode [2/5, 1/2, 3/5]).get? 4 = some ((1 : ℝ)/5) ∧
     (lstmEncode [2/5, 1/2, 3/5]).get? 5 = some ((3 : ℝ)/5)) := by
  refine ⟨fun s h => ?_, fun s h => ?_, ?_, ?_, ?_⟩
  · unfold lstmEncode
    rw [if_pos h]
  · unfold lstmEncode
    rw [if_neg (by omega)]
  · norm_num [lstmEncode, npMeanQ]
  · norm_num [lstmEncode]
  · norm_num [lstmEncode]

/-- Witness for C6: the short series `[0.5]` hits the zero fallback, and
the three-element series gets the full statistics vector. -/
theorem C6_encoder_witness :
    (([1/2] : List ℚ).length < 3 ∧ lstmEncode [1/2] = List.replicate 8 0) ∧
    (3 ≤ ([2/5, 1/2, 3/5] : List ℚ).length ∧
      lstmEncode [2/5, 1/2, 3/5] =
        [(npMeanQ [2/5, 1/2, 3/5] : ℝ), npStdR [2/5, 1/2, 3/5],
         (listMax [2/5, 1/2, 3/5] : ℝ), (listMin [2/5, 1/2, 3/5] : ℝ),
         ((([2/5, 1/2, 3/5] : List ℚ).getLastD 0 - ([2/5, 1/2, 3/5] : List ℚ).headD 0 : ℚ) : ℝ),
         ((([2/5, 1/2, 3/5] : List ℚ).getLastD 0 : ℚ) : ℝ),
         (npMeanQ (npDiff [2/5, 1/2, 3/5]) : ℝ), (listMax (npDiff [2/5, 1/2, 3/5]) : ℝ)]) :=
  ⟨⟨by norm_num, C6_encoder.1 [1/2] (by norm_num)⟩,
   ⟨by norm_num, C6_encoder.2.1 [2/5, 1/2, 3/5] (by norm_num)⟩⟩

/-- The masked-mean written by the source (`any()` guard plus numpy
boolean selection) agrees with the spec-side masked mean. -/
lemma processImage_mean_eq (vals : List ℚ) (valid : List Bool) :
    (if valid.any id then npMeanQ (boolSelect vals valid) else 0) =
      meanOverValidSpec vals valid := by
  rw [meanOverValidSpec_eq]
  by_cases h : valid.any id
  · rw [if_pos h, boolSelect_eq_selectValid]
  · rw [if_neg h, selectValid_of_all_false valid (by simpa using h) vals]
    simp [npMeanQ]

/-- Claim C10: `classify_health_zones` receives no cloud mask — each zone
percentage is (pixels in zone)/(all pixels)·100 over every pixel of the
raster; by contrast `process_image`'s index statistics are means over
only the valid pixels (unmasked and with NDVI strictly inside (−1, 1)),
and when no valid pixel remains all five statistics default to 0. -/
theorem C10_mask_contrast :
    (∀ ndvi ndwi : List ℚ,
      (classifyHealthZones ndvi ndwi).2.critical_percent = pctOfAllPixels 0 ndvi ndwi ∧
      (classifyHealthZones ndvi ndwi).2.stressed_percent = pctOfAllPixels 1 ndvi ndwi ∧
      (classifyHealthZones ndvi ndwi).2.moderate_percent = pctOfAllPixels 2 ndvi ndwi ∧
      (classifyHealthZones ndvi ndwi).2.healthy_percent = pctOfAllPixels 3 ndvi ndwi) ∧
    (∀ img : SatelliteImageR,
      (processImage img).ndvi_mean =
        meanOverValidSpec (computeNdvi img.nir img.red)
          (validMask (img.cloud_mask.getD (List.replicate img.red.length true))
            (computeNdvi img.nir img.red)) ∧
      (processImage img).ndwi_mean =
        meanOverValidSpec (computeNdwi img.nir img.green)
          (validMask (img.cloud_mask.getD (List.replicate img.red.length true))
            (computeNdvi img.nir img.red)) ∧
      (processImage img).savi_mean =
        meanOverValidSpec (computeSavi img.nir img.red)
          (validMask (img.cloud_mask.getD (List.replicate img.red.length true))
            (computeNdvi img.nir img.red))) ∧
    (∀ img : SatelliteImageR,
      (validMask (img.cloud_mask.getD (List.replicate img.red.length true))
          (computeNdvi img.nir img.red)).any id = false →
      (processImage img).ndvi_mean = 0 ∧ (processImage img).ndvi_std = 0 ∧
      (processImage img).ndwi_mean = 0 ∧ (processImage img).ndwi_std = 0 ∧
      (processImage img).savi_mean = 0) := by
  refine ⟨fun ndvi ndwi => ?_, fun img => ?_, fun img h => ?_⟩
  · simp only [classifyHealthZones, pctOfAllPixels]
    rw [count_eq_filter_length 0, count_eq_filter_length 1, count_eq_filter_length 2,
      count_eq_filter_length 3]
    exact ⟨rfl, rfl, rfl, rfl⟩
  · exact ⟨processImage_mean_eq _ _, processImage_mean_eq _ _, processImage_mean_eq _ _⟩
  · refine ⟨?_, ?_, ?_, ?_, ?_⟩ <;> simp [processImage, h]

/-- Witness for C10's zero-default clause at a concrete fully cloud-masked
one-pixel scene. -/
theorem C10_mask_contrast_witness :
    (validMask (imgAllMasked.cloud_mask.getD (List.replicate imgAllMasked.red.length true))
        (computeNdvi imgAllMasked.nir imgAllMasked.red)).any id = false ∧
    ((processImage imgAllMasked).ndvi_mean = 0 ∧ (processImage imgAllMasked).ndvi_std = 0 ∧
     (processImage imgAllMasked).ndwi_mean = 0 ∧ (processImage imgAllMasked).ndwi_std = 0 ∧
     (processImage imgAllMasked).savi_mean = 0) :=
  ⟨by simp [imgAllMasked, validMask, computeNdvi],
   C10_mask_contrast.2.2 imgAllMasked (by simp [imgAllMasked, validMask, computeNdvi])⟩
